import Mathlib

/-!
Verification of the kpae protocol layer (src/lib.rs): a typed client for the
KataGo analysis engine speaking line-delimited JSON over a child process's
stdio. This file shallowly embeds the message model, the serde-derived wire
codec (encoding of `KataAction`, untagged decoding of `KataResponse`), the
`KataQuery` builder, the `start` channel constructor and the
`KataActionEncoder`, and proves the specification's claims about them.
-/

namespace Kpae

/-- JSON values as serde_json sees them after parsing one line. Numbers are
modelled as rationals: the protocol only transports numeric fields (no float
arithmetic happens in the library), so `Rat` serves as the carrier for both
the integral (`u8`/`u16`/`u32`/`i32`) and the `f32` wire numbers. -/
inductive Json where
  | null : Json
  | bool (b : Bool) : Json
  | num (q : Rat) : Json
  | str (s : String) : Json
  | arr (elems : List Json) : Json
  | obj (fields : List (String × Json)) : Json

/-- First value bound to key `k` in a JSON object's field list (serde's field
lookup; the engine never emits duplicate keys). -/
def getKey (k : String) : List (String × Json) → Option Json
  | [] => none
  | (k', v) :: t => if k = k' then some v else getKey k t

theorem getKey_nil (k : String) : getKey k [] = none := rfl

theorem getKey_cons (k k' : String) (v : Json) (t : List (String × Json)) :
    getKey k ((k', v) :: t) = if k = k' then some v else getKey k t := rfl

theorem getKey_append (k : String) (l₁ l₂ : List (String × Json)) :
    getKey k (l₁ ++ l₂) = (getKey k l₁).orElse fun _ => getKey k l₂ := by
  induction l₁ with
  | nil => rfl
  | cons a t ih =>
    obtain ⟨k', v⟩ := a
    by_cases h : k = k' <;> simp [getKey, h, ih]

/-! ## Message model: enums and nested records (src/lib.rs:227-266) -/

/-- `Player` (src/lib.rs:244-250). -/
inductive Player where
  | black : Player
  | white : Player
deriving DecidableEq

/-- Serde wire string of `Player`: the variant renames at src/lib.rs:246,248. -/
def Player.encode : Player → String
  | .black => "B"
  | .white => "W"

/-- `Rules` (src/lib.rs:252-266). -/
inductive Rules where
  | trompTaylor : Rules
  | chinese : Rules
  | chineseOgs : Rules
  | chineseKgs : Rules
  | japanese : Rules
  | korean : Rules
  | stoneScoring : Rules
  | aga : Rules
  | bga : Rules
  | newZealand : Rules
  | agaButton : Rules
deriving DecidableEq

/-- Serde wire string of `Rules` under `rename_all = kebab-case` (src/lib.rs:253). -/
def Rules.encode : Rules → String
  | .trompTaylor => "tromp-taylor"
  | .chinese => "chinese"
  | .chineseOgs => "chinese-ogs"
  | .chineseKgs => "chinese-kgs"
  | .japanese => "japanese"
  | .korean => "korean"
  | .stoneScoring => "stone-scoring"
  | .aga => "aga"
  | .bga => "bga"
  | .newZealand => "new-zealand"
  | .agaButton => "aga-button"

/-- `WhiteHandicapBonus` (src/lib.rs:235-242). -/
inductive WhiteHandicapBonus where
  | zero : WhiteHandicapBonus
  | n : WhiteHandicapBonus
  | nMinusOne : WhiteHandicapBonus
deriving DecidableEq

/-- Serde wire string of `WhiteHandicapBonus`: `Zero` and `NMinusOne` carry
renames (src/lib.rs:237,240); `N` keeps its identifier text. -/
def WhiteHandicapBonus.encode : WhiteHandicapBonus → String
  | .zero => "0"
  | .n => "N"
  | .nMinusOne => "N-1"

/-- `MoveGroup` (src/lib.rs:227-233); `until_depth` is a `u32`. -/
structure MoveGroup where
  player : Player
  moves : List String
  until_depth : Nat
deriving DecidableEq

/-- A `(Player, String)` move pair serializes as the two-element array
`[player-code, coordinate]` (Rust tuples become JSON arrays). -/
def encodeMovePair (m : Player × String) : Json :=
  .arr [.str m.1.encode, .str m.2]

/-- Serde encoding of `MoveGroup` under `rename_all = camelCase`
(src/lib.rs:227-233). -/
def MoveGroup.encode (g : MoveGroup) : Json :=
  .obj [("player", .str g.player.encode),
        ("moves", .arr (g.moves.map .str)),
        ("untilDepth", .num g.until_depth)]

/-! ## The Query record (src/lib.rs:165-225)

Machine integers carry no arithmetic in this library, so `u8`/`u16`/`u32`
fields are `Nat` and the `i32` priority fields are `Int`; `f32` fields are
`Rat` (pure transport). The two misspelled source field names
(`anaysis_pv_len`, `inlcude_ownership_stdev`, src/lib.rs:193,197) are kept
verbatim. -/

/-- `KataQuery` (src/lib.rs:165-219), fields in declaration order.
`allow_moves` is a one-element array `[MoveGroup; 1]` in the source, modelled
as the single element it holds. -/
structure KataQuery where
  id : String
  initial_stones : Option (List (Player × String))
  moves : List (Player × String)
  rules : Rules
  initial_player : Option Player
  komi : Option Rat
  white_handicap_bonus : Option WhiteHandicapBonus
  board_x_size : Nat
  board_y_size : Nat
  analyze_turns : Option (List Nat)
  max_visits : Option Nat
  root_policy_temperature : Option Rat
  root_fpu_reduction_max : Option Rat
  anaysis_pv_len : Option Nat
  include_ownership : Option Bool
  inlcude_ownership_stdev : Option Bool
  include_moves_ownership : Option Bool
  include_moves_ownership_stdev : Option Bool
  include_policy : Option Bool
  include_pv_visits : Option Bool
  avoid_moves : Option (List MoveGroup)
  allow_moves : Option MoveGroup
  override_settings : Option Json
  report_during_search_every : Option Rat
  priority : Option Int
  priorities : Option (List Int)

/-- One required serialized field. -/
def reqF (k : String) (v : Json) : List (String × Json) := [(k, v)]

/-- One optional serialized field under `skip_serializing_none`
(src/lib.rs:122,165): an absent option contributes nothing — no key, no
JSON null. -/
def optF {α : Type} (k : String) (o : Option α) (f : α → Json) :
    List (String × Json) :=
  match o with
  | none => []
  | some v => [(k, f v)]

/-- Serde serialization of `KataQuery` (src/lib.rs:165-219): field names in
lower-camel-case (with the two source misspellings), declaration order,
absent options skipped. -/
def encMoves (l : List (Player × String)) : Json :=
  .arr (l.map encodeMovePair)

def encPlayerJson (p : Player) : Json := .str p.encode

def encRatNum (x : Rat) : Json := .num x

def encWhbJson (w : WhiteHandicapBonus) : Json := .str w.encode

def encNatNum (v : Nat) : Json := .num v

def encNatList (l : List Nat) : Json := .arr (l.map encNatNum)

def encBoolJson (b : Bool) : Json := .bool b

def encMoveGroups (l : List MoveGroup) : Json := .arr (l.map MoveGroup.encode)

def encAllowMoves (g : MoveGroup) : Json := .arr [g.encode]

def encSameJson (j : Json) : Json := j

def encIntNum (z : Int) : Json := .num z

def encIntList (l : List Int) : Json := .arr (l.map encIntNum)

/-- Serde serialization of `KataQuery` (src/lib.rs:165-219): field names in
lower-camel-case (with the two source misspellings), declaration order,
absent options skipped. -/
def encodeQueryFields (q : KataQuery) : List (String × Json) :=
  reqF "id" (.str q.id) ++
  optF "initialStones" q.initial_stones encMoves ++
  reqF "moves" (encMoves q.moves) ++
  reqF "rules" (.str q.rules.encode) ++
  optF "initialPlayer" q.initial_player encPlayerJson ++
  optF "komi" q.komi encRatNum ++
  optF "whiteHandicapBonus" q.white_handicap_bonus encWhbJson ++
  reqF "boardXSize" (encNatNum q.board_x_size) ++
  reqF "boardYSize" (encNatNum q.board_y_size) ++
  optF "analyzeTurns" q.analyze_turns encNatList ++
  optF "maxVisits" q.max_visits encNatNum ++
  optF "rootPolicyTemperature" q.root_policy_temperature encRatNum ++
  optF "rootFpuReductionMax" q.root_fpu_reduction_max encRatNum ++
  optF "anaysisPvLen" q.anaysis_pv_len encNatNum ++
  optF "includeOwnership" q.include_ownership encBoolJson ++
  optF "inlcudeOwnershipStdev" q.inlcude_ownership_stdev encBoolJson ++
  optF "includeMovesOwnership" q.include_moves_ownership encBoolJson ++
  optF "includeMovesOwnershipStdev" q.include_moves_ownership_stdev encBoolJson ++
  optF "includePolicy" q.include_policy encBoolJson ++
  optF "includePvVisits" q.include_pv_visits encBoolJson ++
  optF "avoidMoves" q.avoid_moves encMoveGroups ++
  optF "allowMoves" q.allow_moves encAllowMoves ++
  optF "overrideSettings" q.override_settings encSameJson ++
  optF "reportDuringSearchEvery" q.report_during_search_every encRatNum ++
  optF "priority" q.priority encIntNum ++
  optF "priorities" q.priorities encIntList

/-- `KataAction` (src/lib.rs:122-145): the untagged outgoing envelope. -/
inductive KataAction where
  | query (inner : KataQuery)
  | queryVersion (id : String)
  | clearCache (id : String)
  | terminate (id : String) (terminate_id : String) (turn_numbers : Option (List Nat))

/-- Serde serialization of `KataAction` (untagged, src/lib.rs:122-145): the
`Query` variant flattens `KataQuery` to the top level; the other variants
emit their fixed `action` discriminator strings (src/lib.rs:147-163);
`Terminate` renames to camelCase and skips an absent `turn_numbers`. -/
def encodeKataAction : KataAction → List (String × Json)
  | .query q => encodeQueryFields q
  | .queryVersion i => [("id", .str i), ("action", .str "query_version")]
  | .clearCache i => [("id", .str i), ("action", .str "clear_cache")]
  | .terminate i tid tns =>
      [("id", .str i), ("action", .str "terminate"), ("terminateId", .str tid)] ++
      optF "turnNumbers" tns encNatList

/-! ## Key lookup over the encoded fragments -/

theorem getKey_reqF (k k' : String) (v : Json) :
    getKey k (reqF k' v) = if k = k' then some v else none := rfl

theorem getKey_optF {α : Type} (k k' : String) (o : Option α) (f : α → Json) :
    getKey k (optF k' o f) = if k = k' then o.map f else none := by
  cases o with
  | none => simp [optF, getKey]
  | some v => simp [optF, getKey]

theorem keysOf_reqF (k : String) (v : Json) : (reqF k v).map Prod.fst = [k] := rfl

theorem keysOf_optF_sublist {α : Type} (k : String) (o : Option α) (f : α → Json) :
    List.Sublist ((optF k o f).map Prod.fst) [k] := by
  cases o with
  | none => simp [optF]
  | some v => simp [optF]

theorem mem_keys_reqF (s k : String) (v : Json) :
    s ∈ (reqF k v).map Prod.fst ↔ s = k := by simp [reqF]

theorem mem_keys_optF {α : Type} (s k : String) (o : Option α) (f : α → Json) :
    s ∈ (optF k o f).map Prod.fst ↔ s = k ∧ o.isSome = true := by
  cases o with
  | none => simp [optF]
  | some v => simp [optF]

/-! ## Scalar parsers (serde_json deserialization of primitive fields) -/

/-- Parse a JSON string. -/
def asStr : Json → Option String
  | .str s => some s
  | _ => none

/-- Parse a JSON boolean. -/
def asBool : Json → Option Bool
  | .bool b => some b
  | _ => none

/-- Parse a JSON number into the `f32` carrier (any number accepted, as serde
accepts any JSON number for a float field). -/
def asRat : Json → Option Rat
  | .num q => some q
  | _ => none

/-- Parse a JSON number as an unsigned machine integer smaller than `bound`
(serde rejects non-integral or out-of-range numbers for `u16`/`u32` fields). -/
def asBoundedNat (bound : Nat) : Json → Option Nat
  | .num q =>
      if q.den = 1 ∧ 0 ≤ q.num ∧ q.num < bound then some q.num.toNat else none
  | _ => none

/-- Parse a `u16` field. -/
def asU16 : Json → Option Nat := asBoundedNat 65536

/-- Parse a `u32` field. -/
def asU32 : Json → Option Nat := asBoundedNat 4294967296

/-- Parse each element of a JSON array with `p`, failing if any element fails. -/
def parseAll {α : Type} (p : Json → Option α) : List Json → Option (List α)
  | [] => some []
  | j :: t => (p j).bind fun a => (parseAll p t).map fun r => a :: r

/-- Parse a JSON array elementwise. -/
def asList {α : Type} (p : Json → Option α) : Json → Option (List α)
  | .arr l => parseAll p l
  | _ => none

/-- Deserialize `Player` from its wire string (src/lib.rs:244-250). -/
def Player.parse : String → Option Player
  | "B" => some .black
  | "W" => some .white
  | _ => none

/-! ## The Response union (src/lib.rs:17-59)

`KataResponse` derives an untagged `Deserialize`: serde tries the variants in
declaration order — Result, Resultless, TerminateAck, Version, CacheCleared —
and the first variant whose fields all deserialize wins. `Result`,
`Resultless` and `TerminateAck` rename their fields to camelCase; `Version`
and `CacheCleared` carry no rename, so `Version` expects the literal key
`git_hash` on the wire. The unit discriminator enums `ActionTerminate`,
`ActionQueryVersion`, `ActionClearCache` (src/lib.rs:147-163) deserialize
from their fixed strings and carry no data, so the model checks them during
decoding without storing them. -/

/-- `RootInfo` (src/lib.rs:74-94). -/
structure RootInfo where
  winrate : Rat
  score_lead : Rat
  score_selfplay : Rat
  utility : Option Rat
  visits : Nat
  this_hash : Option String
  sym_hash : Option String
  current_player : Option Player
deriving DecidableEq

/-- `MoveInfo` (src/lib.rs:96-120). -/
structure MoveInfo where
  move : String
  winrate : Rat
  visits : Nat
  score_lead : Rat
  score_selfplay : Rat
  score_stdev : Rat
  prior : Rat
  utility : Rat
  lcb : Rat
  utility_lcb : Rat
  order : Nat
  is_symmetry_of : Option String
  pv : List String
  pv_visits : Option (List Nat)
  pv_edge_visits : Option (List Nat)
  ownership : Option (List Rat)
  ownership_stdev : Option (List Rat)
deriving DecidableEq

/-- `KataResponse` (src/lib.rs:17-59), variants in declaration order. -/
inductive KataResponse where
  | result (id : String) (is_during_search : Bool) (move_infos : List MoveInfo)
      (root_info : RootInfo) (ownership ownership_stdev policy : Option (List Rat))
  | resultless (id : String) (is_during_search : Bool) (turn_number : Nat)
      (no_results : Bool)
  | terminateAck (id : String) (turn_number : Option Nat) (terminate_id : String)
  | version (git_hash : String) (id : String) (version : String)
  | cacheCleared (id : String)
deriving DecidableEq

/-- A required struct field: missing key or failed parse fails the variant. -/
def reqFieldR {α : Type} (o : List (String × Json)) (k : String)
    (p : Json → Option α) : Option α :=
  (getKey k o).bind p

/-- An optional (`Option`-typed) struct field: serde deserializes a missing
key or a JSON null to `None`; a present non-null value must parse. -/
def optFieldR {α : Type} (o : List (String × Json)) (k : String)
    (p : Json → Option α) : Option (Option α) :=
  match getKey k o with
  | none => some none
  | some .null => some none
  | some j => (p j).map some

/-- Second half of the `MoveInfo` field list: the first eleven fields arrive
as arguments, the remaining six are read here (split only to keep the
deserializer's bind chain shallow). -/
def MoveInfo.parseRest (o : List (String × Json)) (mv : String)
    (winrate : Rat) (visits : Nat)
    (score_lead score_selfplay score_stdev prior utility lcb utility_lcb : Rat)
    (order : Nat) : Option MoveInfo :=
  (optFieldR o "isSymmetryOf" asStr).bind fun is_symmetry_of =>
  (reqFieldR o "pv" (asList asStr)).bind fun pv =>
  (optFieldR o "pvVisits" (asList asU32)).bind fun pv_visits =>
  (optFieldR o "pvEdgeVisits" (asList asU32)).bind fun pv_edge_visits =>
  (optFieldR o "ownership" (asList asRat)).bind fun ownership =>
  (optFieldR o "ownershipStdev" (asList asRat)).bind fun ownership_stdev =>
  some ⟨mv, winrate, visits, score_lead, score_selfplay, score_stdev, prior,
        utility, lcb, utility_lcb, order, is_symmetry_of, pv, pv_visits,
        pv_edge_visits, ownership, ownership_stdev⟩

/-- Deserialize one element of `moveInfos` (src/lib.rs:96-120, camelCase keys). -/
def MoveInfo.parse : Json → Option MoveInfo
  | .obj o =>
    (reqFieldR o "move" asStr).bind fun mv =>
    (reqFieldR o "winrate" asRat).bind fun winrate =>
    (reqFieldR o "visits" asU32).bind fun visits =>
    (reqFieldR o "scoreLead" asRat).bind fun score_lead =>
    (reqFieldR o "scoreSelfplay" asRat).bind fun score_selfplay =>
    (reqFieldR o "scoreStdev" asRat).bind fun score_stdev =>
    (reqFieldR o "prior" asRat).bind fun prior =>
    (reqFieldR o "utility" asRat).bind fun utility =>
    (reqFieldR o "lcb" asRat).bind fun lcb =>
    (reqFieldR o "utilityLcb" asRat).bind fun utility_lcb =>
    (reqFieldR o "order" asU16).bind fun order =>
    MoveInfo.parseRest o mv winrate visits score_lead score_selfplay
      score_stdev prior utility lcb utility_lcb order
  | _ => none

/-- Deserialize `rootInfo` (src/lib.rs:74-94, camelCase keys). -/
def RootInfo.parse : Json → Option RootInfo
  | .obj o =>
    (reqFieldR o "winrate" asRat).bind fun winrate =>
    (reqFieldR o "scoreLead" asRat).bind fun score_lead =>
    (reqFieldR o "scoreSelfplay" asRat).bind fun score_selfplay =>
    (optFieldR o "utility" asRat).bind fun utility =>
    (reqFieldR o "visits" asU32).bind fun visits =>
    (optFieldR o "thisHash" asStr).bind fun this_hash =>
    (optFieldR o "symHash" asStr).bind fun sym_hash =>
    (optFieldR o "currentPlayer" (fun j => (asStr j).bind Player.parse)).bind
      fun current_player =>
    some ⟨winrate, score_lead, score_selfplay, utility, visits, this_hash,
          sym_hash, current_player⟩
  | _ => none

/-- Structural match of the `Result` variant (src/lib.rs:20-32). -/
def tryResult (o : List (String × Json)) : Option KataResponse :=
  (reqFieldR o "id" asStr).bind fun i =>
  (reqFieldR o "isDuringSearch" asBool).bind fun dur =>
  (reqFieldR o "moveInfos" (asList MoveInfo.parse)).bind fun mis =>
  (reqFieldR o "rootInfo" RootInfo.parse).bind fun ri =>
  (optFieldR o "ownership" (asList asRat)).bind fun ow =>
  (optFieldR o "ownershipStdev" (asList asRat)).bind fun ows =>
  (optFieldR o "policy" (asList asRat)).bind fun pol =>
  some (.result i dur mis ri ow ows pol)

/-- Structural match of the `Resultless` variant (src/lib.rs:34-40). -/
def tryResultless (o : List (String × Json)) : Option KataResponse :=
  (reqFieldR o "id" asStr).bind fun i =>
  (reqFieldR o "isDuringSearch" asBool).bind fun dur =>
  (reqFieldR o "turnNumber" asU16).bind fun tn =>
  (reqFieldR o "noResults" asBool).bind fun nr =>
  some (.resultless i dur tn nr)

/-- Structural match of the `TerminateAck` variant (src/lib.rs:41-48): the
`action` field must deserialize as `ActionTerminate`, i.e. be the string
`terminate`. -/
def tryTerminateAck (o : List (String × Json)) : Option KataResponse :=
  (reqFieldR o "id" asStr).bind fun i =>
  (reqFieldR o "action" (fun j =>
      match asStr j with
      | some "terminate" => some ()
      | _ => none)).bind fun _ =>
  (optFieldR o "turnNumber" asU16).bind fun tn =>
  (reqFieldR o "terminateId" asStr).bind fun tid =>
  some (.terminateAck i tn tid)

/-- Structural match of the `Version` variant (src/lib.rs:49-54). This variant
carries no `rename_all` attribute, so its git-hash field keeps the Rust name
`git_hash` on the wire, and its type is a plain `String` (the `GitHash`
sentinel enum of src/lib.rs:61-72 is never referenced). -/
def tryVersion (o : List (String × Json)) : Option KataResponse :=
  (reqFieldR o "action" (fun j =>
      match asStr j with
      | some "query_version" => some ()
      | _ => none)).bind fun _ =>
  (reqFieldR o "git_hash" asStr).bind fun gh =>
  (reqFieldR o "id" asStr).bind fun i =>
  (reqFieldR o "version" asStr).bind fun ver =>
  some (.version gh i ver)

/-- Structural match of the `CacheCleared` variant (src/lib.rs:55-58). -/
def tryCacheCleared (o : List (String × Json)) : Option KataResponse :=
  (reqFieldR o "id" asStr).bind fun i =>
  (reqFieldR o "action" (fun j =>
      match asStr j with
      | some "clear_cache" => some ()
      | _ => none)).bind fun _ =>
  some (.cacheCleared i)

/-- Serde untagged deserialization of `KataResponse` (src/lib.rs:17-59): the
variants are tried in declaration order and the first structural match wins;
`none` models the serde error when no variant matches. Engine lines are JSON
objects; non-object values match no struct variant here. -/
def decodeKataResponseJson : Json → Option KataResponse
  | .obj o =>
      (tryResult o).orElse fun _ =>
      (tryResultless o).orElse fun _ =>
      (tryTerminateAck o).orElse fun _ =>
      (tryVersion o).orElse fun _ =>
      tryCacheCleared o
  | _ => none

/-- One line of engine stdout as `serde_json::from_str` sees it: either raw
text that is not valid JSON, or the parsed JSON value. -/
inductive StdoutLine where
  | malformed (raw : String)
  | parsed (j : Json)

/-- Decoding one stdout line (src/lib.rs:286): parse failure or an
unrecognized shape is `none` — the `.unwrap()` there turns it into a panic. -/
def decodeLine : StdoutLine → Option KataResponse
  | .malformed _ => none
  | .parsed j => decodeKataResponseJson j

/-- The response stream built by `start` (src/lib.rs:284-287): each line is
decoded and unwrapped. A failing line panics the reading task, so the whole
stream from that point is lost: that abort is modelled by the stream
producing `none` instead of any list of responses. -/
def responseStream : List StdoutLine → Option (List KataResponse)
  | [] => some []
  | l :: rest =>
      match decodeLine l with
      | none => none
      | some r => (responseStream rest).map fun t => r :: t

/-- `GitHashOmitted` (src/lib.rs:61-65): the single variant renamed to the
sentinel string. -/
inductive GitHashOmitted where
  | omitted : GitHashOmitted
deriving DecidableEq

/-- `GitHash` (src/lib.rs:67-72): untagged, `Omitted` tried before `Included`.
The type is declared in the source but never referenced: the `Version`
response stores its git hash as a plain `String`. -/
inductive GitHash where
  | omitted (v : GitHashOmitted)
  | included (s : String)
deriving DecidableEq

/-- Untagged deserialization of `GitHash`: a string equal to the sentinel
becomes `Omitted`, any other string becomes `Included`. -/
def GitHash.parse (j : Json) : Option GitHash :=
  match asStr j with
  | some s => if s = "<omitted>" then some (.omitted .omitted) else some (.included s)
  | none => none

/-! ## Concrete protocol lines used by the claims -/

/-- The progress-heartbeat line of the spec: id, isDuringSearch, turnNumber,
noResults and nothing else. -/
def resultlessLine : Json :=
  .obj [("id", .str "a1"), ("isDuringSearch", .bool false),
        ("turnNumber", .num 3), ("noResults", .bool true)]

/-- The version reply of the spec, with the camelCase key `gitHash` holding
the omitted sentinel. -/
def specVersionLine : Json :=
  .obj [("action", .str "query_version"), ("gitHash", .str "<omitted>"),
        ("id", .str "q1"), ("version", .str "1.0")]

/-- A version reply shaped the way the derived decoder actually requires:
the git-hash key spelled `git_hash`. -/
def codeVersionLine : Json :=
  .obj [("action", .str "query_version"), ("git_hash", .str "abc123"),
        ("id", .str "q1"), ("version", .str "1.8.0")]

/-- `codeVersionLine` with the omitted sentinel as the `git_hash` value. -/
def codeVersionOmittedLine : Json :=
  .obj [("action", .str "query_version"), ("git_hash", .str "<omitted>"),
        ("id", .str "q1"), ("version", .str "1.0")]

/-- An object satisfying both the `Resultless` and the `Version` structural
shapes at once: the Resultless fields plus an unambiguous `action`
discriminator and the Version fields. -/
def ambiguousFields : List (String × Json) :=
  [("id", .str "a1"), ("isDuringSearch", .bool false),
   ("turnNumber", .num 3), ("noResults", .bool true),
   ("action", .str "query_version"), ("git_hash", .str "abc"),
   ("version", .str "1.0")]

/-- A terminate acknowledgment line. -/
def terminateAckLine : Json :=
  .obj [("id", .str "t1"), ("action", .str "terminate"), ("terminateId", .str "q7")]

/-- A cache-cleared line. -/
def cacheClearedLine : Json :=
  .obj [("id", .str "c1"), ("action", .str "clear_cache")]

/-! ## C1: order of the untagged Response match -/

/-- C1 counterexample: the claim says the discriminator-bearing variants
(here Version, whose structural match succeeds on this object) are matched
before Resultless; but the derived decoder resolves this object to the
Resultless variant, not the Version one, so Version is not matched first. -/
theorem untagged_order_counterexample :
    tryVersion ambiguousFields = some (.version "abc" "a1" "1.0") ∧
    decodeKataResponseJson (.obj ambiguousFields) =
      some (.resultless "a1" false 3 true) ∧
    decodeKataResponseJson (.obj ambiguousFields) ≠
      some (.version "abc" "a1" "1.0") := by
  refine ⟨by decide, by decide, by decide⟩

/-- C1 (amended): decoding resolves the untagged Response union
deterministically by trying the variants in declaration order — Result,
Resultless, TerminateAck, Version, CacheCleared — the first structural match
winning, so Result and Resultless are matched before the discriminator-bearing
variants; in particular the spec's heartbeat line decodes to Resultless, not
Result, and a line satisfying both the Resultless and Version shapes also
decodes to Resultless. -/
theorem untagged_declaration_order :
    decodeKataResponseJson resultlessLine = some (.resultless "a1" false 3 true) ∧
    decodeKataResponseJson codeVersionLine = some (.version "abc123" "q1" "1.8.0") ∧
    decodeKataResponseJson terminateAckLine = some (.terminateAck "t1" none "q7") ∧
    decodeKataResponseJson cacheClearedLine = some (.cacheCleared "c1") ∧
    decodeKataResponseJson (.obj ambiguousFields) =
      some (.resultless "a1" false 3 true) := by
  refine ⟨by decide, by decide, by decide, by decide, by decide⟩

/-! ## C3: a malformed line aborts the stream instead of yielding an error -/

/-- C3: the source unwraps every decoded line (src/lib.rs:286), so one
malformed line aborts the whole reading task (modelled as the stream
producing `none`) even though the following line is well formed and would
decode; no typed error value carrying the raw line is ever yielded. -/
theorem malformed_line_aborts_stream :
    responseStream [.malformed "not json", .parsed resultlessLine] = none ∧
    decodeLine (.parsed resultlessLine) = some (.resultless "a1" false 3 true) := by
  refine ⟨by decide, by decide⟩

/-! ## C6: the omitted git-hash sentinel is dead code -/

/-- C6: the spec's version reply (camelCase key `gitHash`, sentinel value)
matches no variant of the derived decoder — `Version` requires the key
`git_hash` — and even a reply using that key stores the sentinel as an
ordinary string, because `Version.git_hash` is a plain `String`; the
sentinel-recognizing `GitHash` type exists but is unused. -/
theorem version_sentinel_unrecognized :
    decodeKataResponseJson specVersionLine = none ∧
    decodeKataResponseJson codeVersionOmittedLine =
      some (.version "<omitted>" "q1" "1.0") ∧
    GitHash.parse (.str "<omitted>") = some (.omitted .omitted) := by
  refine ⟨by decide, by decide, by decide⟩

/-! ## The set of wire keys a Query can emit -/

/-- Every key `encodeQueryFields` can produce, in declaration order. -/
def queryWireKeys : List String :=
  ["id"] ++
  ["initialStones"] ++
  ["moves"] ++
  ["rules"] ++
  ["initialPlayer"] ++
  ["komi"] ++
  ["whiteHandicapBonus"] ++
  ["boardXSize"] ++
  ["boardYSize"] ++
  ["analyzeTurns"] ++
  ["maxVisits"] ++
  ["rootPolicyTemperature"] ++
  ["rootFpuReductionMax"] ++
  ["anaysisPvLen"] ++
  ["includeOwnership"] ++
  ["inlcudeOwnershipStdev"] ++
  ["includeMovesOwnership"] ++
  ["includeMovesOwnershipStdev"] ++
  ["includePolicy"] ++
  ["includePvVisits"] ++
  ["avoidMoves"] ++
  ["allowMoves"] ++
  ["overrideSettings"] ++
  ["reportDuringSearchEvery"] ++
  ["priority"] ++
  ["priorities"]

theorem encodeQuery_keys_sublist (q : KataQuery) :
    List.Sublist ((encodeQueryFields q).map Prod.fst) queryWireKeys := by
  simp only [encodeQueryFields, queryWireKeys, List.map_append, keysOf_reqF]
  exact (List.Sublist.append (List.Sublist.append (List.Sublist.append (List.Sublist.append (List.Sublist.append (List.Sublist.append (List.Sublist.append (List.Sublist.append (List.Sublist.append (List.Sublist.append (List.Sublist.append (List.Sublist.append (List.Sublist.append (List.Sublist.append (List.Sublist.append (List.Sublist.append (List.Sublist.append (List.Sublist.append (List.Sublist.append (List.Sublist.append (List.Sublist.append (List.Sublist.append (List.Sublist.append (List.Sublist.append (List.Sublist.append (List.Sublist.refl _) (keysOf_optF_sublist _ _ _)) (List.Sublist.refl _)) (List.Sublist.refl _)) (keysOf_optF_sublist _ _ _)) (keysOf_optF_sublist _ _ _)) (keysOf_optF_sublist _ _ _)) (List.Sublist.refl _)) (List.Sublist.refl _)) (keysOf_optF_sublist _ _ _)) (keysOf_optF_sublist _ _ _)) (keysOf_optF_sublist _ _ _)) (keysOf_optF_sublist _ _ _)) (keysOf_optF_sublist _ _ _)) (keysOf_optF_sublist _ _ _)) (keysOf_optF_sublist _ _ _)) (keysOf_optF_sublist _ _ _)) (keysOf_optF_sublist _ _ _)) (keysOf_optF_sublist _ _ _)) (keysOf_optF_sublist _ _ _)) (keysOf_optF_sublist _ _ _)) (keysOf_optF_sublist _ _ _)) (keysOf_optF_sublist _ _ _)) (keysOf_optF_sublist _ _ _)) (keysOf_optF_sublist _ _ _)) (keysOf_optF_sublist _ _ _))

theorem queryWireKeys_nodup : queryWireKeys.Nodup := by decide

theorem encodeQuery_keys_nodup (q : KataQuery) :
    ((encodeQueryFields q).map Prod.fst).Nodup :=
  List.Nodup.sublist (encodeQuery_keys_sublist q) queryWireKeys_nodup

/-! ## C4: fixed wire strings of the enums and discriminators -/

/-- C4: every enum encodes to its fixed wire string, not its identifier text:
the eleven rule sets to their hyphenated lowercase names, the players to
their single-letter codes, the handicap-bonus policies to the literals 0, N
and N-1, and the three non-query actions to their fixed discriminator
strings in the encoded object's `action` field. -/
theorem enum_wire_strings :
    Rules.encode .newZealand = "new-zealand" ∧
    Rules.encode .trompTaylor = "tromp-taylor" ∧
    Rules.encode .chinese = "chinese" ∧
    Rules.encode .chineseOgs = "chinese-ogs" ∧
    Rules.encode .chineseKgs = "chinese-kgs" ∧
    Rules.encode .japanese = "japanese" ∧
    Rules.encode .korean = "korean" ∧
    Rules.encode .stoneScoring = "stone-scoring" ∧
    Rules.encode .aga = "aga" ∧
    Rules.encode .bga = "bga" ∧
    Rules.encode .agaButton = "aga-button" ∧
    Player.encode .white = "W" ∧
    Player.encode .black = "B" ∧
    WhiteHandicapBonus.encode .nMinusOne = "N-1" ∧
    WhiteHandicapBonus.encode .zero = "0" ∧
    WhiteHandicapBonus.encode .n = "N" ∧
    (∀ i : String, getKey "action" (encodeKataAction (.queryVersion i)) =
      some (.str "query_version")) ∧
    (∀ i : String, getKey "action" (encodeKataAction (.clearCache i)) =
      some (.str "clear_cache")) ∧
    (∀ (i tid : String) (tns : Option (List Nat)),
      getKey "action" (encodeKataAction (.terminate i tid tns)) =
        some (.str "terminate")) := by
  refine ⟨rfl, rfl, rfl, rfl, rfl, rfl, rfl, rfl, rfl, rfl, rfl, rfl, rfl,
    rfl, rfl, rfl, fun i => rfl, fun i => rfl, fun i tid tns => ?_⟩
  simp [encodeKataAction, getKey]

/-! ## C10: the misspelled wire keys -/

/-- C10: the principal-variation length cap is keyed by the misspelled
`anaysisPvLen` and the ownership-stdev flag by the misspelled
`inlcudeOwnershipStdev`; the correctly spelled keys never occur in an
encoded Query. -/
theorem misspelled_wire_keys (q : KataQuery) :
    "analysisPvLen" ∉ (encodeQueryFields q).map Prod.fst ∧
    "includeOwnershipStdev" ∉ (encodeQueryFields q).map Prod.fst ∧
    (∀ n, q.anaysis_pv_len = some n →
      ("anaysisPvLen", Json.num n) ∈ encodeQueryFields q) ∧
    (∀ b, q.inlcude_ownership_stdev = some b →
      ("inlcudeOwnershipStdev", Json.bool b) ∈ encodeQueryFields q) := by
  refine ⟨fun h => ?_, fun h => ?_, fun n hn => ?_, fun b hb => ?_⟩
  · exact absurd ((encodeQuery_keys_sublist q).mem h) (by decide)
  · exact absurd ((encodeQuery_keys_sublist q).mem h) (by decide)
  · simp [encodeQueryFields, optF, encNatNum, hn]
  · simp [encodeQueryFields, optF, encBoolJson, hb]

/-- C10 witness at a concrete query. -/
theorem misspelled_wire_keys_witness :
    ("anaysisPvLen", Json.num 13) ∈ encodeQueryFields
      ⟨"w", none, [], .japanese, none, none, none, 19, 19, none, none, none,
       none, some 13, none, some true, none, none, none, none, none, none,
       none, none, none, none⟩ :=
  (misspelled_wire_keys _).2.2.1 13 rfl

/-! ## C5: unset optionals are omitted, set ones appear -/

/-- C5: a wire key for an optional field appears in the encoded object
exactly when that field holds a value — an unset option contributes neither
a key nor a JSON null, while a present-but-empty collection still appears —
for all twenty-one optional Query fields and for Terminate's turnNumbers. -/
theorem optional_keys_present_iff (q : KataQuery) (i tid : String)
    (tns : Option (List Nat)) :
    ("initialStones" ∈ (encodeQueryFields q).map Prod.fst ↔
      q.initial_stones.isSome = true) ∧
    ("initialPlayer" ∈ (encodeQueryFields q).map Prod.fst ↔
      q.initial_player.isSome = true) ∧
    ("komi" ∈ (encodeQueryFields q).map Prod.fst ↔ q.komi.isSome = true) ∧
    ("whiteHandicapBonus" ∈ (encodeQueryFields q).map Prod.fst ↔
      q.white_handicap_bonus.isSome = true) ∧
    ("analyzeTurns" ∈ (encodeQueryFields q).map Prod.fst ↔
      q.analyze_turns.isSome = true) ∧
    ("maxVisits" ∈ (encodeQueryFields q).map Prod.fst ↔
      q.max_visits.isSome = true) ∧
    ("rootPolicyTemperature" ∈ (encodeQueryFields q).map Prod.fst ↔
      q.root_policy_temperature.isSome = true) ∧
    ("rootFpuReductionMax" ∈ (encodeQueryFields q).map Prod.fst ↔
      q.root_fpu_reduction_max.isSome = true) ∧
    ("anaysisPvLen" ∈ (encodeQueryFields q).map Prod.fst ↔
      q.anaysis_pv_len.isSome = true) ∧
    ("includeOwnership" ∈ (encodeQueryFields q).map Prod.fst ↔
      q.include_ownership.isSome = true) ∧
    ("inlcudeOwnershipStdev" ∈ (encodeQueryFields q).map Prod.fst ↔
      q.inlcude_ownership_stdev.isSome = true) ∧
    ("includeMovesOwnership" ∈ (encodeQueryFields q).map Prod.fst ↔
      q.include_moves_ownership.isSome = true) ∧
    ("includeMovesOwnershipStdev" ∈ (encodeQueryFields q).map Prod.fst ↔
      q.include_moves_ownership_stdev.isSome = true) ∧
    ("includePolicy" ∈ (encodeQueryFields q).map Prod.fst ↔
      q.include_policy.isSome = true) ∧
    ("includePvVisits" ∈ (encodeQueryFields q).map Prod.fst ↔
      q.include_pv_visits.isSome = true) ∧
    ("avoidMoves" ∈ (encodeQueryFields q).map Prod.fst ↔
      q.avoid_moves.isSome = true) ∧
    ("allowMoves" ∈ (encodeQueryFields q).map Prod.fst ↔
      q.allow_moves.isSome = true) ∧
    ("overrideSettings" ∈ (encodeQueryFields q).map Prod.fst ↔
      q.override_settings.isSome = true) ∧
    ("reportDuringSearchEvery" ∈ (encodeQueryFields q).map Prod.fst ↔
      q.report_during_search_every.isSome = true) ∧
    ("priority" ∈ (encodeQueryFields q).map Prod.fst ↔
      q.priority.isSome = true) ∧
    ("priorities" ∈ (encodeQueryFields q).map Prod.fst ↔
      q.priorities.isSome = true) ∧
    ("turnNumbers" ∈ (encodeKataAction (.terminate i tid tns)).map Prod.fst ↔
      tns.isSome = true) := by
  refine ⟨?_, ?_, ?_, ?_, ?_, ?_, ?_, ?_, ?_, ?_, ?_, ?_, ?_, ?_, ?_, ?_,
    ?_, ?_, ?_, ?_, ?_, ?_⟩ <;>
    first
      | simp only [encodeQueryFields, List.map_append, List.mem_append,
          mem_keys_reqF, mem_keys_optF, String.reduceEq, false_and, false_or,
          or_false, true_and, and_true]
      | (cases tns <;> simp [encodeKataAction, optF])

/-! ## C7: the derived Query builder (src/lib.rs:165-225)

The `Builder` derive stores every field behind an extra `Option` layer, offers
a setter per field, and its `build` method fills the struct in declaration
order: a field without `builder(default)` that was never set aborts the build
with an uninitialized-field error naming that field, while the
`builder(default)` fields (every optional Query field) fall back to their
default, `None`. -/

/-- The error `build` returns for a required field that was never set. -/
inductive KataQueryBuilderError where
  | uninitializedField (field : String)
deriving DecidableEq

/-- `KataQueryBuilder`: each Query field behind the builder's `Option` layer,
all starting unset. -/
structure KataQueryBuilder where
  id : Option String := none
  initial_stones : Option (Option (List (Player × String))) := none
  moves : Option (List (Player × String)) := none
  rules : Option Rules := none
  initial_player : Option (Option Player) := none
  komi : Option (Option Rat) := none
  white_handicap_bonus : Option (Option WhiteHandicapBonus) := none
  board_x_size : Option Nat := none
  board_y_size : Option Nat := none
  analyze_turns : Option (Option (List Nat)) := none
  max_visits : Option (Option Nat) := none
  root_policy_temperature : Option (Option Rat) := none
  root_fpu_reduction_max : Option (Option Rat) := none
  anaysis_pv_len : Option (Option Nat) := none
  include_ownership : Option (Option Bool) := none
  inlcude_ownership_stdev : Option (Option Bool) := none
  include_moves_ownership : Option (Option Bool) := none
  include_moves_ownership_stdev : Option (Option Bool) := none
  include_policy : Option (Option Bool) := none
  include_pv_visits : Option (Option Bool) := none
  avoid_moves : Option (Option (List MoveGroup)) := none
  allow_moves : Option (Option MoveGroup) := none
  override_settings : Option (Option Json) := none
  report_during_search_every : Option (Option Rat) := none
  priority : Option (Option Int) := none
  priorities : Option (Option (List Int)) := none

/-- A required builder field: set, or the uninitialized-field error. -/
def requiredField {α : Type} (o : Option α) (name : String) :
    Except KataQueryBuilderError α :=
  match o with
  | some v => .ok v
  | none => .error (.uninitializedField name)

/-- `KataQueryBuilder::build`: required fields (`id`, `moves`, `rules`,
`board_x_size`, `board_y_size` — the ones without `builder(default)`) are
demanded in declaration order; every other field defaults to `None`. -/
def KataQueryBuilder.build (b : KataQueryBuilder) :
    Except KataQueryBuilderError KataQuery :=
  (requiredField b.id "id").bind fun i =>
  (requiredField b.moves "moves").bind fun mv =>
  (requiredField b.rules "rules").bind fun r =>
  (requiredField b.board_x_size "board_x_size").bind fun bx =>
  (requiredField b.board_y_size "board_y_size").bind fun by_ =>
  .ok { id := i, initial_stones := b.initial_stones.getD none, moves := mv,
        rules := r, initial_player := b.initial_player.getD none,
        komi := b.komi.getD none,
        white_handicap_bonus := b.white_handicap_bonus.getD none,
        board_x_size := bx, board_y_size := by_,
        analyze_turns := b.analyze_turns.getD none,
        max_visits := b.max_visits.getD none,
        root_policy_temperature := b.root_policy_temperature.getD none,
        root_fpu_reduction_max := b.root_fpu_reduction_max.getD none,
        anaysis_pv_len := b.anaysis_pv_len.getD none,
        include_ownership := b.include_ownership.getD none,
        inlcude_ownership_stdev := b.inlcude_ownership_stdev.getD none,
        include_moves_ownership := b.include_moves_ownership.getD none,
        include_moves_ownership_stdev := b.include_moves_ownership_stdev.getD none,
        include_policy := b.include_policy.getD none,
        include_pv_visits := b.include_pv_visits.getD none,
        avoid_moves := b.avoid_moves.getD none,
        allow_moves := b.allow_moves.getD none,
        override_settings := b.override_settings.getD none,
        report_during_search_every := b.report_during_search_every.getD none,
        priority := b.priority.getD none, priorities := b.priorities.getD none }

/-- `KataQuery::builder()` (src/lib.rs:221-225): the all-unset builder. -/
def KataQuery.builder : KataQueryBuilder := {}

/-- Builder setter for `id` (the derived setters carry the field names). -/
def KataQueryBuilder.setId (b : KataQueryBuilder) (v : String) :
    KataQueryBuilder := { b with id := some v }

/-- Builder setter for `moves`. -/
def KataQueryBuilder.setMoves (b : KataQueryBuilder)
    (v : List (Player × String)) : KataQueryBuilder := { b with moves := some v }

/-- Builder setter for `rules`. -/
def KataQueryBuilder.setRules (b : KataQueryBuilder) (v : Rules) :
    KataQueryBuilder := { b with rules := some v }

/-- Builder setter for `board_x_size`. -/
def KataQueryBuilder.setBoardXSize (b : KataQueryBuilder) (v : Nat) :
    KataQueryBuilder := { b with board_x_size := some v }

/-- Builder setter for `board_y_size`. -/
def KataQueryBuilder.setBoardYSize (b : KataQueryBuilder) (v : Nat) :
    KataQueryBuilder := { b with board_y_size := some v }

/-- C7: building with any required field unset fails at build time with an
uninitialized-field error naming a required field, while supplying exactly
the five required fields through the setters succeeds and leaves every
optional field unset. -/
theorem builder_missing_field_fails :
    (∀ b : KataQueryBuilder,
      b.id = none ∨ b.moves = none ∨ b.rules = none ∨
        b.board_x_size = none ∨ b.board_y_size = none →
      ∃ f, f ∈ ["id", "moves", "rules", "board_x_size", "board_y_size"] ∧
        b.build = .error (.uninitializedField f)) ∧
    (∀ (i : String) (mv : List (Player × String)) (r : Rules) (bx by_ : Nat),
      (((((KataQuery.builder.setId i).setMoves mv).setRules r).setBoardXSize
          bx).setBoardYSize by_).build =
        .ok ⟨i, none, mv, r, none, none, none, bx, by_, none, none, none, none,
             none, none, none, none, none, none, none, none, none, none, none,
             none, none⟩) := by
  constructor
  · intro b h
    cases hid : b.id with
    | none =>
      exact ⟨"id", by simp, by simp [KataQueryBuilder.build, requiredField, Except.bind, hid]⟩
    | some i =>
      cases hmv : b.moves with
      | none =>
        exact ⟨"moves", by simp,
          by simp [KataQueryBuilder.build, requiredField, Except.bind, hid, hmv]⟩
      | some mv =>
        cases hr : b.rules with
        | none =>
          exact ⟨"rules", by simp,
            by simp [KataQueryBuilder.build, requiredField, Except.bind, hid, hmv, hr]⟩
        | some r =>
          cases hbx : b.board_x_size with
          | none =>
            exact ⟨"board_x_size", by simp,
              by simp [KataQueryBuilder.build, requiredField, Except.bind, hid, hmv, hr, hbx]⟩
          | some bx =>
            cases hby : b.board_y_size with
            | none =>
              exact ⟨"board_y_size", by simp,
                by simp [KataQueryBuilder.build, requiredField, Except.bind, hid, hmv, hr,
                  hbx, hby]⟩
            | some by_ =>
              simp [hid, hmv, hr, hbx, hby] at h
  · intro i mv r bx by_
    rfl

/-! ## C8: channel construction under spawn failure (src/lib.rs:268-288) -/

/-- A spawned child's captured pipes: `None` models a pipe that was not
captured (the `Option` in Rust's `Child`). -/
structure ChildProcess where
  stdin : Option Nat
  stdout : Option Nat

/-- What `Command::spawn` produced: a running child or an OS error such as a
missing executable. -/
inductive SpawnOutcome where
  | spawned (child : ChildProcess)
  | ioError (msg : String)

/-- Shallow embedding of `start` (src/lib.rs:268-288). The function unwraps
the spawn result and both pipe handles; each `.unwrap()` panic — which
crashes the calling task and returns nothing to the caller — is modelled as
`none`. The Rust signature returns the sink/stream pair directly, with no
error channel at all, so no spawn failure can ever be reported as a value. -/
def start (outcome : SpawnOutcome) : Option (Nat × Nat) :=
  match outcome with
  | .ioError _ => none
  | .spawned c =>
      match c.stdin, c.stdout with
      | some stdin, some stdout => some (stdin, stdout)
      | _, _ => none

/-- C8: when spawning fails, `start` reaches the `.unwrap()` panic (modelled
`none`) for every error message — channel construction crashes the calling
task instead of returning a recoverable error (its return type offers no
error channel). -/
theorem start_spawn_failure_panics :
    (∀ msg, start (.ioError msg) = none) ∧
    start (.spawned ⟨some 0, some 1⟩) = some (0, 1) := by
  exact ⟨fun msg => rfl, rfl⟩

/-! ## C9: the action encoder never fails (src/lib.rs:290-300) -/

/-- A chunk of the outgoing byte stream: one serialized JSON object or the
line terminator. -/
inductive WireChunk where
  | jsonText (fields : List (String × Json))
  | newline

/-- `KataActionEncoder::encode` (src/lib.rs:292-300): serializes the action
and appends it plus a newline to `dst`, returning `Ok`. Serialization itself
is total on this data model — every field is primitively serializable and
every map key is a string, so `serde_json::to_vec` has no failing case to
hit — hence the embedded encoder is a total function into `Except`, whose
error type mirrors `std::io::Error`. -/
def encoderEncode (item : KataAction) (dst : List WireChunk) :
    Except String (List WireChunk) :=
  .ok (dst ++ [.jsonText (encodeKataAction item), .newline])

/-- C9: encoding an Action never fails: for every action and buffer the
encoder returns `Ok` and appends exactly one serialized JSON object followed
by one newline, so no submission is ever silently dropped. -/
theorem encode_never_fails (item : KataAction) (dst : List WireChunk) :
    encoderEncode item dst =
      .ok (dst ++ [.jsonText (encodeKataAction item), .newline]) ∧
    ∀ e : String, encoderEncode item dst ≠ .error e := by
  exact ⟨rfl, fun e h => by simp [encoderEncode] at h⟩


/-! ## C2: round-tripping an encoded Action

The repository never decodes actions (`KataAction`/`KataQuery` only derive
`Serialize`), so the decoding half of the spec's round-trip property is
modelled from the spec's description of the wire format; the encoding half is
the source's serde derivation above. -/

/-- Parse a JSON number as an unsigned integer (integral, non-negative). -/
def asNat : Json → Option Nat
  | .num q => if q.den = 1 ∧ 0 ≤ q.num then some q.num.toNat else none
  | _ => none

/-- Parse a JSON number as a signed integer (integral). -/
def asInt : Json → Option Int
  | .num q => if q.den = 1 then some q.num else none
  | _ => none

theorem asNat_encNatNum (n : Nat) : asNat (encNatNum n) = some n := by
  simp [asNat, encNatNum, Rat.den_natCast, Rat.num_natCast]

theorem asInt_encIntNum (z : Int) : asInt (encIntNum z) = some z := by
  simp [asInt, encIntNum, Rat.den_intCast, Rat.num_intCast]

theorem asRat_encRatNum (x : Rat) : asRat (encRatNum x) = some x := rfl

theorem asBool_encBoolJson (b : Bool) : asBool (encBoolJson b) = some b := rfl

/-- Modelled from the spec: inverse of the `Rules` wire strings (the source
only serializes `Rules`). -/
def Rules.parse : String → Option Rules
  | "tromp-taylor" => some .trompTaylor
  | "chinese" => some .chinese
  | "chinese-ogs" => some .chineseOgs
  | "chinese-kgs" => some .chineseKgs
  | "japanese" => some .japanese
  | "korean" => some .korean
  | "stone-scoring" => some .stoneScoring
  | "aga" => some .aga
  | "bga" => some .bga
  | "new-zealand" => some .newZealand
  | "aga-button" => some .agaButton
  | _ => none

/-- Modelled from the spec: inverse of the handicap-bonus literals (the
source only serializes `WhiteHandicapBonus`). -/
def WhiteHandicapBonus.parse : String → Option WhiteHandicapBonus
  | "0" => some .zero
  | "N" => some .n
  | "N-1" => some .nMinusOne
  | _ => none

/-- Modelled from the spec: inverse of the two-element `[player-code,
coordinate]` move pair (the source only serializes move pairs). -/
def asMovePair : Json → Option (Player × String)
  | .arr [pj, cj] =>
      ((asStr pj).bind Player.parse).bind fun p =>
        (asStr cj).map fun c => (p, c)
  | _ => none

theorem asMovePair_encode (m : Player × String) :
    asMovePair (encodeMovePair m) = some m := by
  obtain ⟨p, c⟩ := m
  cases p <;> rfl

theorem parseAll_map {α : Type} (p : Json → Option α) (f : α → Json)
    (h : ∀ a, p (f a) = some a) (l : List α) :
    parseAll p (l.map f) = some l := by
  induction l with
  | nil => rfl
  | cons a t ih => simp [parseAll, h, ih]

/-- Modelled from the spec: elementwise inverse of the moves array. -/
def parseMoves : Json → Option (List (Player × String)) :=
  asList asMovePair

/-- Modelled from the spec: a rules field is its wire string. -/
def parseRulesJson : Json → Option Rules :=
  fun j => (asStr j).bind Rules.parse

/-- Modelled from the spec: a player field is its one-letter code. -/
def parsePlayerJson : Json → Option Player :=
  fun j => (asStr j).bind Player.parse

/-- Modelled from the spec: a handicap-bonus field is its literal string. -/
def parseWhbJson : Json → Option WhiteHandicapBonus :=
  fun j => (asStr j).bind WhiteHandicapBonus.parse

/-- Modelled from the spec: a list of turn indices. -/
def parseNatList : Json → Option (List Nat) :=
  asList asNat

/-- Modelled from the spec: a list of scheduling priorities. -/
def parseIntList : Json → Option (List Int) :=
  asList asInt

/-- Modelled from the spec: inverse of the `MoveGroup` object (the source
only serializes `MoveGroup`). -/
def MoveGroup.parse : Json → Option MoveGroup
  | .obj o =>
      (reqFieldR o "player" parsePlayerJson).bind fun p =>
      (reqFieldR o "moves" (asList asStr)).bind fun ms =>
      (reqFieldR o "untilDepth" asNat).bind fun d =>
      some ⟨p, ms, d⟩
  | _ => none

/-- Modelled from the spec: the avoid-moves groups. -/
def parseMoveGroups : Json → Option (List MoveGroup) :=
  asList MoveGroup.parse

/-- Modelled from the spec: the one-element allow-moves array. -/
def parseAllowMoves : Json → Option MoveGroup
  | .arr [g] => MoveGroup.parse g
  | _ => none

/-- Modelled from the spec: the free-form settings override passes through. -/
def parseAnyJson : Json → Option Json :=
  fun j => some j

theorem player_parse_encode (p : Player) :
    parsePlayerJson (encPlayerJson p) = some p := by cases p <;> rfl

theorem rules_parse_encode (r : Rules) :
    parseRulesJson (.str r.encode) = some r := by cases r <;> rfl

theorem whb_parse_encode (w : WhiteHandicapBonus) :
    parseWhbJson (encWhbJson w) = some w := by cases w <;> rfl

theorem moveGroup_parse_encode (g : MoveGroup) :
    MoveGroup.parse g.encode = some g := by
  obtain ⟨p, ms, d⟩ := g
  simp [MoveGroup.parse, MoveGroup.encode, reqFieldR, getKey, parsePlayerJson,
    asStr, asList, parseAll_map asStr Json.str fun s => rfl, asNat_encNatNum,
    encNatNum, asNat, Rat.den_natCast, Rat.num_natCast]
  cases p <;> simp [Player.encode, Player.parse, asStr]

theorem parseMoves_encode (l : List (Player × String)) :
    parseMoves (encMoves l) = some l := by
  simp [parseMoves, encMoves, asList,
    parseAll_map asMovePair encodeMovePair asMovePair_encode]

theorem parseNatList_encode (l : List Nat) :
    parseNatList (encNatList l) = some l := by
  simp [parseNatList, encNatList, asList,
    parseAll_map asNat encNatNum asNat_encNatNum]

theorem parseIntList_encode (l : List Int) :
    parseIntList (encIntList l) = some l := by
  simp [parseIntList, encIntList, asList,
    parseAll_map asInt encIntNum asInt_encIntNum]

theorem parseMoveGroups_encode (l : List MoveGroup) :
    parseMoveGroups (encMoveGroups l) = some l := by
  simp [parseMoveGroups, encMoveGroups, asList,
    parseAll_map MoveGroup.parse MoveGroup.encode moveGroup_parse_encode]

theorem parseAllowMoves_encode (g : MoveGroup) :
    parseAllowMoves (encAllowMoves g) = some g := by
  simp [parseAllowMoves, encAllowMoves, moveGroup_parse_encode]

theorem gk_id (q : KataQuery) :
    getKey "id" (encodeQueryFields q) = some (.str q.id) := by
  simp [encodeQueryFields, getKey_append, getKey_reqF, getKey_optF,
    Option.orElse_none, Option.none_orElse]

theorem gk_initialStones (q : KataQuery) :
    getKey "initialStones" (encodeQueryFields q) = q.initial_stones.map encMoves := by
  cases hf : q.initial_stones <;>
    simp [encodeQueryFields, getKey_append, getKey_reqF, getKey_optF,
      Option.orElse_none, Option.none_orElse, hf]

theorem gk_moves (q : KataQuery) :
    getKey "moves" (encodeQueryFields q) = some (encMoves q.moves) := by
  simp [encodeQueryFields, getKey_append, getKey_reqF, getKey_optF,
    Option.orElse_none, Option.none_orElse]

theorem gk_rules (q : KataQuery) :
    getKey "rules" (encodeQueryFields q) = some (.str q.rules.encode) := by
  simp [encodeQueryFields, getKey_append, getKey_reqF, getKey_optF,
    Option.orElse_none, Option.none_orElse]

theorem gk_initialPlayer (q : KataQuery) :
    getKey "initialPlayer" (encodeQueryFields q) = q.initial_player.map encPlayerJson := by
  cases hf : q.initial_player <;>
    simp [encodeQueryFields, getKey_append, getKey_reqF, getKey_optF,
      Option.orElse_none, Option.none_orElse, hf]

theorem gk_komi (q : KataQuery) :
    getKey "komi" (encodeQueryFields q) = q.komi.map encRatNum := by
  cases hf : q.komi <;>
    simp [encodeQueryFields, getKey_append, getKey_reqF, getKey_optF,
      Option.orElse_none, Option.none_orElse, hf]

theorem gk_whiteHandicapBonus (q : KataQuery) :
    getKey "whiteHandicapBonus" (encodeQueryFields q) = q.white_handicap_bonus.map encWhbJson := by
  cases hf : q.white_handicap_bonus <;>
    simp [encodeQueryFields, getKey_append, getKey_reqF, getKey_optF,
      Option.orElse_none, Option.none_orElse, hf]

theorem gk_boardXSize (q : KataQuery) :
    getKey "boardXSize" (encodeQueryFields q) = some (encNatNum q.board_x_size) := by
  simp [encodeQueryFields, getKey_append, getKey_reqF, getKey_optF,
    Option.orElse_none, Option.none_orElse]

theorem gk_boardYSize (q : KataQuery) :
    getKey "boardYSize" (encodeQueryFields q) = some (encNatNum q.board_y_size) := by
  simp [encodeQueryFields, getKey_append, getKey_reqF, getKey_optF,
    Option.orElse_none, Option.none_orElse]

theorem gk_analyzeTurns (q : KataQuery) :
    getKey "analyzeTurns" (encodeQueryFields q) = q.analyze_turns.map encNatList := by
  cases hf : q.analyze_turns <;>
    simp [encodeQueryFields, getKey_append, getKey_reqF, getKey_optF,
      Option.orElse_none, Option.none_orElse, hf]

theorem gk_maxVisits (q : KataQuery) :
    getKey "maxVisits" (encodeQueryFields q) = q.max_visits.map encNatNum := by
  cases hf : q.max_visits <;>
    simp [encodeQueryFields, getKey_append, getKey_reqF, getKey_optF,
      Option.orElse_none, Option.none_orElse, hf]

theorem gk_rootPolicyTemperature (q : KataQuery) :
    getKey "rootPolicyTemperature" (encodeQueryFields q) = q.root_policy_temperature.map encRatNum := by
  cases hf : q.root_policy_temperature <;>
    simp [encodeQueryFields, getKey_append, getKey_reqF, getKey_optF,
      Option.orElse_none, Option.none_orElse, hf]

theorem gk_rootFpuReductionMax (q : KataQuery) :
    getKey "rootFpuReductionMax" (encodeQueryFields q) = q.root_fpu_reduction_max.map encRatNum := by
  cases hf : q.root_fpu_reduction_max <;>
    simp [encodeQueryFields, getKey_append, getKey_reqF, getKey_optF,
      Option.orElse_none, Option.none_orElse, hf]

theorem gk_anaysisPvLen (q : KataQuery) :
    getKey "anaysisPvLen" (encodeQueryFields q) = q.anaysis_pv_len.map encNatNum := by
  cases hf : q.anaysis_pv_len <;>
    simp [encodeQueryFields, getKey_append, getKey_reqF, getKey_optF,
      Option.orElse_none, Option.none_orElse, hf]

theorem gk_includeOwnership (q : KataQuery) :
    getKey "includeOwnership" (encodeQueryFields q) = q.include_ownership.map encBoolJson := by
  cases hf : q.include_ownership <;>
    simp [encodeQueryFields, getKey_append, getKey_reqF, getKey_optF,
      Option.orElse_none, Option.none_orElse, hf]

theorem gk_inlcudeOwnershipStdev (q : KataQuery) :
    getKey "inlcudeOwnershipStdev" (encodeQueryFields q) = q.inlcude_ownership_stdev.map encBoolJson := by
  cases hf : q.inlcude_ownership_stdev <;>
    simp [encodeQueryFields, getKey_append, getKey_reqF, getKey_optF,
      Option.orElse_none, Option.none_orElse, hf]

theorem gk_includeMovesOwnership (q : KataQuery) :
    getKey "includeMovesOwnership" (encodeQueryFields q) = q.include_moves_ownership.map encBoolJson := by
  cases hf : q.include_moves_ownership <;>
    simp [encodeQueryFields, getKey_append, getKey_reqF, getKey_optF,
      Option.orElse_none, Option.none_orElse, hf]

theorem gk_includeMovesOwnershipStdev (q : KataQuery) :
    getKey "includeMovesOwnershipStdev" (encodeQueryFields q) = q.include_moves_ownership_stdev.map encBoolJson := by
  cases hf : q.include_moves_ownership_stdev <;>
    simp [encodeQueryFields, getKey_append, getKey_reqF, getKey_optF,
      Option.orElse_none, Option.none_orElse, hf]

theorem gk_includePolicy (q : KataQuery) :
    getKey "includePolicy" (encodeQueryFields q) = q.include_policy.map encBoolJson := by
  cases hf : q.include_policy <;>
    simp [encodeQueryFields, getKey_append, getKey_reqF, getKey_optF,
      Option.orElse_none, Option.none_orElse, hf]

theorem gk_includePvVisits (q : KataQuery) :
    getKey "includePvVisits" (encodeQueryFields q) = q.include_pv_visits.map encBoolJson := by
  cases hf : q.include_pv_visits <;>
    simp [encodeQueryFields, getKey_append, getKey_reqF, getKey_optF,
      Option.orElse_none, Option.none_orElse, hf]

theorem gk_avoidMoves (q : KataQuery) :
    getKey "avoidMoves" (encodeQueryFields q) = q.avoid_moves.map encMoveGroups := by
  cases hf : q.avoid_moves <;>
    simp [encodeQueryFields, getKey_append, getKey_reqF, getKey_optF,
      Option.orElse_none, Option.none_orElse, hf]

theorem gk_allowMoves (q : KataQuery) :
    getKey "allowMoves" (encodeQueryFields q) = q.allow_moves.map encAllowMoves := by
  cases hf : q.allow_moves <;>
    simp [encodeQueryFields, getKey_append, getKey_reqF, getKey_optF,
      Option.orElse_none, Option.none_orElse, hf]

theorem gk_overrideSettings (q : KataQuery) :
    getKey "overrideSettings" (encodeQueryFields q) = q.override_settings.map encSameJson := by
  cases hf : q.override_settings <;>
    simp [encodeQueryFields, getKey_append, getKey_reqF, getKey_optF,
      Option.orElse_none, Option.none_orElse, hf]

theorem gk_reportDuringSearchEvery (q : KataQuery) :
    getKey "reportDuringSearchEvery" (encodeQueryFields q) = q.report_during_search_every.map encRatNum := by
  cases hf : q.report_during_search_every <;>
    simp [encodeQueryFields, getKey_append, getKey_reqF, getKey_optF,
      Option.orElse_none, Option.none_orElse, hf]

theorem gk_priority (q : KataQuery) :
    getKey "priority" (encodeQueryFields q) = q.priority.map encIntNum := by
  cases hf : q.priority <;>
    simp [encodeQueryFields, getKey_append, getKey_reqF, getKey_optF,
      Option.orElse_none, Option.none_orElse, hf]

theorem gk_priorities (q : KataQuery) :
    getKey "priorities" (encodeQueryFields q) = q.priorities.map encIntList := by
  cases hf : q.priorities <;>
    simp [encodeQueryFields, getKey_append, getKey_reqF, getKey_optF,
      Option.orElse_none, Option.none_orElse, hf]

theorem gk_action (q : KataQuery) :
    getKey "action" (encodeQueryFields q) = none := by
  simp [encodeQueryFields, getKey_append, getKey_reqF, getKey_optF,
    Option.orElse_none, Option.none_orElse]


/-- A required field read through a lookup function: missing key or failed
parse is a decode failure. -/
def reqFieldG {α : Type} (g : String → Option Json) (k : String)
    (p : Json → Option α) : Option α :=
  (g k).bind p

/-- Modelled from the spec: an optional field read through a lookup function —
an absent key is the explicit not-present value, a present value must parse. -/
def optFieldG {α : Type} (g : String → Option Json) (k : String)
    (p : Json → Option α) : Option (Option α) :=
  match g k with
  | none => some none
  | some j => (p j).map some

/-- Modelled from the spec: Query decoding, fields 1-7 (split into four
parts only to keep each bind chain shallow). The repository has no Query
decoder (`KataQuery` only derives `Serialize`), so these decoders are the
spec's wire-format description read back: required fields must be present,
optional fields default to not-present, values are read by key. -/
def decodeQueryPartA (g : String → Option Json) :
    Option (String × Option (List (Player × String)) ×
      List (Player × String) × Rules × Option Player × Option Rat ×
      Option WhiteHandicapBonus) :=
  (reqFieldG g "id" asStr).bind fun i =>
  (optFieldG g "initialStones" parseMoves).bind fun ist =>
  (reqFieldG g "moves" parseMoves).bind fun mv =>
  (reqFieldG g "rules" parseRulesJson).bind fun r =>
  (optFieldG g "initialPlayer" parsePlayerJson).bind fun ip =>
  (optFieldG g "komi" asRat).bind fun km =>
  (optFieldG g "whiteHandicapBonus" parseWhbJson).bind fun whb =>
  some (i, ist, mv, r, ip, km, whb)

/-- Modelled from the spec: Query decoding, fields 8-14. -/
def decodeQueryPartB (g : String → Option Json) :
    Option (Nat × Nat × Option (List Nat) × Option Nat × Option Rat ×
      Option Rat × Option Nat) :=
  (reqFieldG g "boardXSize" asNat).bind fun bx =>
  (reqFieldG g "boardYSize" asNat).bind fun by_ =>
  (optFieldG g "analyzeTurns" parseNatList).bind fun at_ =>
  (optFieldG g "maxVisits" asNat).bind fun mx =>
  (optFieldG g "rootPolicyTemperature" asRat).bind fun rpt =>
  (optFieldG g "rootFpuReductionMax" asRat).bind fun rfr =>
  (optFieldG g "anaysisPvLen" asNat).bind fun apl =>
  some (bx, by_, at_, mx, rpt, rfr, apl)

/-- Modelled from the spec: Query decoding, fields 15-21. -/
def decodeQueryPartC (g : String → Option Json) :
    Option (Option Bool × Option Bool × Option Bool × Option Bool ×
      Option Bool × Option Bool × Option (List MoveGroup)) :=
  (optFieldG g "includeOwnership" asBool).bind fun io =>
  (optFieldG g "inlcudeOwnershipStdev" asBool).bind fun ios =>
  (optFieldG g "includeMovesOwnership" asBool).bind fun imo =>
  (optFieldG g "includeMovesOwnershipStdev" asBool).bind fun imos =>
  (optFieldG g "includePolicy" asBool).bind fun ipol =>
  (optFieldG g "includePvVisits" asBool).bind fun ipv =>
  (optFieldG g "avoidMoves" parseMoveGroups).bind fun av =>
  some (io, ios, imo, imos, ipol, ipv, av)

/-- Modelled from the spec: Query decoding, fields 22-26. -/
def decodeQueryPartD (g : String → Option Json) :
    Option (Option MoveGroup × Option Json × Option Rat × Option Int ×
      Option (List Int)) :=
  (optFieldG g "allowMoves" parseAllowMoves).bind fun al =>
  (optFieldG g "overrideSettings" parseAnyJson).bind fun ov =>
  (optFieldG g "reportDuringSearchEvery" asRat).bind fun rp =>
  (optFieldG g "priority" asInt).bind fun pr =>
  (optFieldG g "priorities" parseIntList).bind fun prs =>
  some (al, ov, rp, pr, prs)

/-- Modelled from the spec: the whole Query object. -/
def decodeQueryG (g : String → Option Json) : Option KataQuery :=
  (decodeQueryPartA g).bind fun a =>
  (decodeQueryPartB g).bind fun b =>
  (decodeQueryPartC g).bind fun c =>
  (decodeQueryPartD g).bind fun d =>
  some ⟨a.1, a.2.1, a.2.2.1, a.2.2.2.1, a.2.2.2.2.1, a.2.2.2.2.2.1,
        a.2.2.2.2.2.2, b.1, b.2.1, b.2.2.1, b.2.2.2.1, b.2.2.2.2.1,
        b.2.2.2.2.2.1, b.2.2.2.2.2.2, c.1, c.2.1, c.2.2.1, c.2.2.2.1,
        c.2.2.2.2.1, c.2.2.2.2.2.1, c.2.2.2.2.2.2, d.1, d.2.1, d.2.2.1,
        d.2.2.2.1, d.2.2.2.2⟩

/-- Modelled from the spec: Action decoding — the repository has no Action
decoder (`KataAction` only derives `Serialize`). The `action` discriminator
selects QueryVersion, ClearCache or Terminate; an object without an `action`
key is a flattened Query. -/
def decodeActionG (g : String → Option Json) : Option KataAction :=
  match g "action" with
  | some (.str "query_version") =>
      (reqFieldG g "id" asStr).bind fun i => some (.queryVersion i)
  | some (.str "clear_cache") =>
      (reqFieldG g "id" asStr).bind fun i => some (.clearCache i)
  | some (.str "terminate") =>
      (reqFieldG g "id" asStr).bind fun i =>
      (reqFieldG g "terminateId" asStr).bind fun tid =>
      (optFieldG g "turnNumbers" parseNatList).bind fun tns =>
      some (.terminate i tid tns)
  | some _ => none
  | none => (decodeQueryG g).map .query

/-- Modelled from the spec: decoding one encoded Action object. All field
access goes through key lookup, so field order in the object is irrelevant. -/
def decodeKataActionFields (o : List (String × Json)) : Option KataAction :=
  decodeActionG fun k => getKey k o

theorem dec_id (q : KataQuery) :
    reqFieldG (fun k => getKey k (encodeQueryFields q)) "id" asStr =
      some q.id := by
  simp [reqFieldG, gk_id q, asStr]

theorem dec_initialStones (q : KataQuery) :
    optFieldG (fun k => getKey k (encodeQueryFields q)) "initialStones" parseMoves =
      some q.initial_stones := by
  cases hf : q.initial_stones with
  | none => simp [optFieldG, gk_initialStones q, hf]
  | some a => simp [optFieldG, gk_initialStones q, hf, parseMoves_encode]

theorem dec_moves (q : KataQuery) :
    reqFieldG (fun k => getKey k (encodeQueryFields q)) "moves" parseMoves =
      some q.moves := by
  simp [reqFieldG, gk_moves q, parseMoves_encode]

theorem dec_rules (q : KataQuery) :
    reqFieldG (fun k => getKey k (encodeQueryFields q)) "rules" parseRulesJson =
      some q.rules := by
  simp [reqFieldG, gk_rules q, rules_parse_encode]

theorem dec_initialPlayer (q : KataQuery) :
    optFieldG (fun k => getKey k (encodeQueryFields q)) "initialPlayer" parsePlayerJson =
      some q.initial_player := by
  cases hf : q.initial_player with
  | none => simp [optFieldG, gk_initialPlayer q, hf]
  | some a => simp [optFieldG, gk_initialPlayer q, hf, player_parse_encode]

theorem dec_komi (q : KataQuery) :
    optFieldG (fun k => getKey k (encodeQueryFields q)) "komi" asRat =
      some q.komi := by
  cases hf : q.komi with
  | none => simp [optFieldG, gk_komi q, hf]
  | some a => simp [optFieldG, gk_komi q, hf, asRat_encRatNum]

theorem dec_whiteHandicapBonus (q : KataQuery) :
    optFieldG (fun k => getKey k (encodeQueryFields q)) "whiteHandicapBonus" parseWhbJson =
      some q.white_handicap_bonus := by
  cases hf : q.white_handicap_bonus with
  | none => simp [optFieldG, gk_whiteHandicapBonus q, hf]
  | some a => simp [optFieldG, gk_whiteHandicapBonus q, hf, whb_parse_encode]

theorem dec_boardXSize (q : KataQuery) :
    reqFieldG (fun k => getKey k (encodeQueryFields q)) "boardXSize" asNat =
      some q.board_x_size := by
  simp [reqFieldG, gk_boardXSize q, asNat_encNatNum]

theorem dec_boardYSize (q : KataQuery) :
    reqFieldG (fun k => getKey k (encodeQueryFields q)) "boardYSize" asNat =
      some q.board_y_size := by
  simp [reqFieldG, gk_boardYSize q, asNat_encNatNum]

theorem dec_analyzeTurns (q : KataQuery) :
    optFieldG (fun k => getKey k (encodeQueryFields q)) "analyzeTurns" parseNatList =
      some q.analyze_turns := by
  cases hf : q.analyze_turns with
  | none => simp [optFieldG, gk_analyzeTurns q, hf]
  | some a => simp [optFieldG, gk_analyzeTurns q, hf, parseNatList_encode]

theorem dec_maxVisits (q : KataQuery) :
    optFieldG (fun k => getKey k (encodeQueryFields q)) "maxVisits" asNat =
      some q.max_visits := by
  cases hf : q.max_visits with
  | none => simp [optFieldG, gk_maxVisits q, hf]
  | some a => simp [optFieldG, gk_maxVisits q, hf, asNat_encNatNum]

theorem dec_rootPolicyTemperature (q : KataQuery) :
    optFieldG (fun k => getKey k (encodeQueryFields q)) "rootPolicyTemperature" asRat =
      some q.root_policy_temperature := by
  cases hf : q.root_policy_temperature with
  | none => simp [optFieldG, gk_rootPolicyTemperature q, hf]
  | some a => simp [optFieldG, gk_rootPolicyTemperature q, hf, asRat_encRatNum]

theorem dec_rootFpuReductionMax (q : KataQuery) :
    optFieldG (fun k => getKey k (encodeQueryFields q)) "rootFpuReductionMax" asRat =
      some q.root_fpu_reduction_max := by
  cases hf : q.root_fpu_reduction_max with
  | none => simp [optFieldG, gk_rootFpuReductionMax q, hf]
  | some a => simp [optFieldG, gk_rootFpuReductionMax q, hf, asRat_encRatNum]

theorem dec_anaysisPvLen (q : KataQuery) :
    optFieldG (fun k => getKey k (encodeQueryFields q)) "anaysisPvLen" asNat =
      some q.anaysis_pv_len := by
  cases hf : q.anaysis_pv_len with
  | none => simp [optFieldG, gk_anaysisPvLen q, hf]
  | some a => simp [optFieldG, gk_anaysisPvLen q, hf, asNat_encNatNum]

theorem dec_includeOwnership (q : KataQuery) :
    optFieldG (fun k => getKey k (encodeQueryFields q)) "includeOwnership" asBool =
      some q.include_ownership := by
  cases hf : q.include_ownership with
  | none => simp [optFieldG, gk_includeOwnership q, hf]
  | some a => simp [optFieldG, gk_includeOwnership q, hf, asBool_encBoolJson]

theorem dec_inlcudeOwnershipStdev (q : KataQuery) :
    optFieldG (fun k => getKey k (encodeQueryFields q)) "inlcudeOwnershipStdev" asBool =
      some q.inlcude_ownership_stdev := by
  cases hf : q.inlcude_ownership_stdev with
  | none => simp [optFieldG, gk_inlcudeOwnershipStdev q, hf]
  | some a => simp [optFieldG, gk_inlcudeOwnershipStdev q, hf, asBool_encBoolJson]

theorem dec_includeMovesOwnership (q : KataQuery) :
    optFieldG (fun k => getKey k (encodeQueryFields q)) "includeMovesOwnership" asBool =
      some q.include_moves_ownership := by
  cases hf : q.include_moves_ownership with
  | none => simp [optFieldG, gk_includeMovesOwnership q, hf]
  | some a => simp [optFieldG, gk_includeMovesOwnership q, hf, asBool_encBoolJson]

theorem dec_includeMovesOwnershipStdev (q : KataQuery) :
    optFieldG (fun k => getKey k (encodeQueryFields q)) "includeMovesOwnershipStdev" asBool =
      some q.include_moves_ownership_stdev := by
  cases hf : q.include_moves_ownership_stdev with
  | none => simp [optFieldG, gk_includeMovesOwnershipStdev q, hf]
  | some a => simp [optFieldG, gk_includeMovesOwnershipStdev q, hf, asBool_encBoolJson]

theorem dec_includePolicy (q : KataQuery) :
    optFieldG (fun k => getKey k (encodeQueryFields q)) "includePolicy" asBool =
      some q.include_policy := by
  cases hf : q.include_policy with
  | none => simp [optFieldG, gk_includePolicy q, hf]
  | some a => simp [optFieldG, gk_includePolicy q, hf, asBool_encBoolJson]

theorem dec_includePvVisits (q : KataQuery) :
    optFieldG (fun k => getKey k (encodeQueryFields q)) "includePvVisits" asBool =
      some q.include_pv_visits := by
  cases hf : q.include_pv_visits with
  | none => simp [optFieldG, gk_includePvVisits q, hf]
  | some a => simp [optFieldG, gk_includePvVisits q, hf, asBool_encBoolJson]

theorem dec_avoidMoves (q : KataQuery) :
    optFieldG (fun k => getKey k (encodeQueryFields q)) "avoidMoves" parseMoveGroups =
      some q.avoid_moves := by
  cases hf : q.avoid_moves with
  | none => simp [optFieldG, gk_avoidMoves q, hf]
  | some a => simp [optFieldG, gk_avoidMoves q, hf, parseMoveGroups_encode]

theorem dec_allowMoves (q : KataQuery) :
    optFieldG (fun k => getKey k (encodeQueryFields q)) "allowMoves" parseAllowMoves =
      some q.allow_moves := by
  cases hf : q.allow_moves with
  | none => simp [optFieldG, gk_allowMoves q, hf]
  | some a => simp [optFieldG, gk_allowMoves q, hf, parseAllowMoves_encode]

theorem dec_overrideSettings (q : KataQuery) :
    optFieldG (fun k => getKey k (encodeQueryFields q)) "overrideSettings" parseAnyJson =
      some q.override_settings := by
  cases hf : q.override_settings with
  | none => simp [optFieldG, gk_overrideSettings q, hf]
  | some a => simp [optFieldG, gk_overrideSettings q, hf, parseAnyJson, encSameJson]

theorem dec_reportDuringSearchEvery (q : KataQuery) :
    optFieldG (fun k => getKey k (encodeQueryFields q)) "reportDuringSearchEvery" asRat =
      some q.report_during_search_every := by
  cases hf : q.report_during_search_every with
  | none => simp [optFieldG, gk_reportDuringSearchEvery q, hf]
  | some a => simp [optFieldG, gk_reportDuringSearchEvery q, hf, asRat_encRatNum]

theorem dec_priority (q : KataQuery) :
    optFieldG (fun k => getKey k (encodeQueryFields q)) "priority" asInt =
      some q.priority := by
  cases hf : q.priority with
  | none => simp [optFieldG, gk_priority q, hf]
  | some a => simp [optFieldG, gk_priority q, hf, asInt_encIntNum]

theorem dec_priorities (q : KataQuery) :
    optFieldG (fun k => getKey k (encodeQueryFields q)) "priorities" parseIntList =
      some q.priorities := by
  cases hf : q.priorities with
  | none => simp [optFieldG, gk_priorities q, hf]
  | some a => simp [optFieldG, gk_priorities q, hf, parseIntList_encode]


theorem decodeQueryPartA_encode (q : KataQuery) :
    decodeQueryPartA (fun k => getKey k (encodeQueryFields q)) =
      some (q.id, q.initial_stones, q.moves, q.rules, q.initial_player,
        q.komi, q.white_handicap_bonus) := by
  simp [decodeQueryPartA, dec_id, dec_initialStones, dec_moves, dec_rules,
    dec_initialPlayer, dec_komi, dec_whiteHandicapBonus]

theorem decodeQueryPartB_encode (q : KataQuery) :
    decodeQueryPartB (fun k => getKey k (encodeQueryFields q)) =
      some (q.board_x_size, q.board_y_size, q.analyze_turns, q.max_visits,
        q.root_policy_temperature, q.root_fpu_reduction_max,
        q.anaysis_pv_len) := by
  simp [decodeQueryPartB, dec_boardXSize, dec_boardYSize, dec_analyzeTurns,
    dec_maxVisits, dec_rootPolicyTemperature, dec_rootFpuReductionMax,
    dec_anaysisPvLen]

theorem decodeQueryPartC_encode (q : KataQuery) :
    decodeQueryPartC (fun k => getKey k (encodeQueryFields q)) =
      some (q.include_ownership, q.inlcude_ownership_stdev,
        q.include_moves_ownership, q.include_moves_ownership_stdev,
        q.include_policy, q.include_pv_visits, q.avoid_moves) := by
  simp [decodeQueryPartC, dec_includeOwnership, dec_inlcudeOwnershipStdev,
    dec_includeMovesOwnership, dec_includeMovesOwnershipStdev,
    dec_includePolicy, dec_includePvVisits, dec_avoidMoves]

theorem decodeQueryPartD_encode (q : KataQuery) :
    decodeQueryPartD (fun k => getKey k (encodeQueryFields q)) =
      some (q.allow_moves, q.override_settings,
        q.report_during_search_every, q.priority, q.priorities) := by
  simp [decodeQueryPartD, dec_allowMoves, dec_overrideSettings,
    dec_reportDuringSearchEvery, dec_priority, dec_priorities]

theorem decodeQueryG_encode (q : KataQuery) :
    decodeQueryG (fun k => getKey k (encodeQueryFields q)) = some q := by
  simp [decodeQueryG, decodeQueryPartA_encode, decodeQueryPartB_encode,
    decodeQueryPartC_encode, decodeQueryPartD_encode]

theorem decode_encode (x : KataAction) :
    decodeKataActionFields (encodeKataAction x) = some x := by
  cases x with
  | query q =>
      have h := decodeQueryG_encode q
      simp only [decodeKataActionFields, encodeKataAction, decodeActionG,
        gk_action, h]
      rfl
  | queryVersion i => rfl
  | clearCache i => rfl
  | terminate i tid tns =>
      cases tns <;>
        simp [decodeKataActionFields, encodeKataAction, decodeActionG,
          reqFieldG, optFieldG, getKey, optF, asStr, parseNatList_encode]

theorem getKey_perm {l₁ l₂ : List (String × Json)} (h : l₁.Perm l₂)
    (nd : (l₂.map Prod.fst).Nodup) (k : String) : getKey k l₁ = getKey k l₂ := by
  induction h with
  | nil => rfl
  | cons x p ih =>
      obtain ⟨k₁, v₁⟩ := x
      rw [List.map_cons, List.nodup_cons] at nd
      by_cases hk : k = k₁ <;> simp [getKey, hk, ih nd.2]
  | swap x y l =>
      obtain ⟨k₁, v₁⟩ := x
      obtain ⟨k₂, v₂⟩ := y
      have hne : k₁ ≠ k₂ := by
        intro he
        subst he
        simp [List.nodup_cons] at nd
      by_cases h1 : k = k₁ <;> by_cases h2 : k = k₂
      · exact absurd (h1.symm.trans h2) hne
      · simp [getKey, h1, h2, hne]
      · simp [getKey, h1, h2, Ne.symm hne]
      · simp [getKey, h1, h2]
  | trans p₁ p₂ ih₁ ih₂ =>
      exact (ih₁ (((p₂.map Prod.fst).nodup_iff).mpr nd)).trans (ih₂ nd)

theorem encAction_keys_nodup (x : KataAction) :
    ((encodeKataAction x).map Prod.fst).Nodup := by
  cases x with
  | query q => exact encodeQuery_keys_nodup q
  | queryVersion i => simp [encodeKataAction]
  | clearCache i => simp [encodeKataAction]
  | terminate i tid tns => cases tns <;> simp [encodeKataAction, optF]

/-- C2: decoding the object produced by encoding any Action value — in the
emitted field order or any permutation of it — recovers exactly the fields
of that value. -/
theorem action_roundtrip (x : KataAction) (l : List (String × Json))
    (hp : l.Perm (encodeKataAction x)) :
    decodeKataActionFields l = some x := by
  have hg : (fun k => getKey k l) = fun k => getKey k (encodeKataAction x) :=
    funext fun k => getKey_perm hp (encAction_keys_nodup x) k
  calc decodeKataActionFields l = decodeActionG fun k => getKey k l := rfl
    _ = decodeActionG fun k => getKey k (encodeKataAction x) := by rw [hg]
    _ = some x := decode_encode x

/-- C2 witness: a version query whose two fields arrive in the opposite of
the emitted order still decodes to the original action. -/
theorem action_roundtrip_witness :
    decodeKataActionFields
      [("action", Json.str "query_version"), ("id", Json.str "q1")] =
      some (.queryVersion "q1") :=
  action_roundtrip (.queryVersion "q1") _ (List.Perm.swap _ _ _)

end Kpae
